import Mathlib

/-!
Shallow embedding of the radiology tele-instruction tool.

The repository has two deployment variants of the same domain logic:
* a peer-to-peer variant (StaffDashboard with PeerJS + local db, PatientDisplay
  generating a 4-digit pairing code), and
* a server-relayed variant (Express + Socket.io server keeping a
  `currentInstruction` and a `patient_room`).

We model the controller's session state machine (`startSession`, `endSession`,
`goToStep`), the delivery messages it produces, the patient display's message
handler and media reconstruction, the display's label-suppression condition
(`isNaN(Number(name))` in JS), the pairing-code generation, and the relay
server's socket event handlers.
-/

namespace RadiologyComm

/-- A browser `Blob`: raw byte content plus a MIME type string. -/
structure Blob where
  bytes : List Nat
  btype : String
  deriving DecidableEq, Repr

/-- `Blob.arrayBuffer()` — yields the blob's byte content. -/
def Blob.toArrayBuffer (b : Blob) : List Nat := b.bytes

/-- The `Instruction` record of the peer-to-peer variant's local store
(`src/lib/db.ts`): text, optional media blob, its MIME type, background tag. -/
structure Instruction where
  id : String
  scenario_id : String
  name : String
  media : Option Blob
  media_type : Option String
  bg_color : String
  deriving DecidableEq, Repr

/-- The wire payload `sendInstruction` builds: the blob converted to an
`ArrayBuffer` (raw bytes), everything else copied. -/
structure WirePayload where
  id : String
  name : String
  media : Option (List Nat)
  media_type : Option String
  bg_color : String
  deriving DecidableEq, Repr

/-- Messages sent controller → display over the peer data connection. -/
inductive PeerMsg where
  | instruction (payload : WirePayload)
  | clear
  deriving DecidableEq, Repr

/-- The staff dashboard's view mode. -/
inductive ViewMode where
  | list
  | session
  | edit
  deriving DecidableEq, Repr

/-- The controller-side state of `StaffDashboard`: connection flags, view mode,
session fields (`activeScenarioId`, `currentStepIndex`) and the
`instructionsByScenario` map (a record keyed by scenario id). -/
structure StaffState where
  patientCode : String
  isConnecting : Bool
  patientConnected : Bool
  conn : Bool
  viewMode : ViewMode
  activeScenarioId : Option String
  currentStepIndex : Nat
  instructionsByScenario : List (String × List Instruction)
  deriving DecidableEq, Repr

/-- `instructionsByScenario[scenarioId] || []` — record lookup defaulting to
the empty list. -/
def getInsts (m : List (String × List Instruction)) (sid : String) :
    List Instruction :=
  (List.lookup sid m).getD []

/-- Payload construction inside `sendInstruction`: the media blob is converted
to an `ArrayBuffer` before sending. -/
def mkPayload (inst : Instruction) : WirePayload :=
  { id := inst.id
    name := inst.name
    media := inst.media.map Blob.toArrayBuffer
    media_type := inst.media_type
    bg_color := inst.bg_color }

/-- `sendInstruction(inst)`: sends an instruction message when a connection is
present and the patient is connected; otherwise nothing goes out. -/
def sendInstruction (s : StaffState) (inst : Instruction) : List PeerMsg :=
  if s.conn && s.patientConnected then [PeerMsg.instruction (mkPayload inst)]
  else []

/-- `clearInstruction()`: sends a clear message when connected. -/
def clearInstruction (s : StaffState) : List PeerMsg :=
  if s.conn && s.patientConnected then [PeerMsg.clear] else []

/-- `startSession(scenarioId)`: set the active scenario, reset the cursor to 0,
switch to the session view, and send the first instruction if the scenario has
any. Returns the new state and the messages sent. -/
def startSession (s : StaffState) (scenarioId : String) :
    StaffState × List PeerMsg :=
  let s' := { s with
    activeScenarioId := some scenarioId
    currentStepIndex := 0
    viewMode := ViewMode.session }
  match getInsts s.instructionsByScenario scenarioId with
  | [] => (s', [])
  | inst0 :: _ => (s', sendInstruction s inst0)

/-- `endSession()`: clear the active scenario, reset the cursor, return to the
list view, and send a clear message (unconditionally attempted). -/
def endSession (s : StaffState) : StaffState × List PeerMsg :=
  ({ s with
      activeScenarioId := none
      currentStepIndex := 0
      viewMode := ViewMode.list },
   clearInstruction s)

/-- `goToStep(index)`: no-op when no session is active; when active, moves the
cursor and sends the step's instruction only if `0 <= index < length`. The
index is an integer because the UI calls `goToStep(currentStepIndex - 1)`. -/
def goToStep (s : StaffState) (index : Int) : StaffState × List PeerMsg :=
  match s.activeScenarioId with
  | none => (s, [])
  | some sid =>
    let instructions := getInsts s.instructionsByScenario sid
    if h : 0 ≤ index ∧ index < (instructions.length : Int) then
      ({ s with currentStepIndex := index.toNat },
       sendInstruction s (instructions.get ⟨index.toNat, by omega⟩))
    else (s, [])

/-- The "Suivant" button: `goToStep(currentStepIndex + 1)`. -/
def advance (s : StaffState) : StaffState × List PeerMsg :=
  goToStep s ((s.currentStepIndex : Int) + 1)

/-- Iterated advance (state component only). -/
def advanceN : Nat → StaffState → StaffState
  | 0, s => s
  | n + 1, s => advanceN n (advance s).1

/-- `conn.on('close')` on the controller: mark the patient disconnected and
drop the connection reference; nothing else is touched. -/
def connClose (s : StaffState) : StaffState :=
  { s with patientConnected := false, conn := false }

/-- Cursor-bounds invariant of the session state machine: while a session is
active and its step list is nonempty, the cursor is strictly below the number
of steps. -/
def sessionInv (s : StaffState) : Prop :=
  match s.activeScenarioId with
  | none => True
  | some sid =>
    getInsts s.instructionsByScenario sid ≠ [] →
      s.currentStepIndex < (getInsts s.instructionsByScenario sid).length

/-! ### Patient display (peer-to-peer variant, `PatientDisplay` with PeerJS) -/

/-- `conn.on('data')` on the display: an instruction message replaces the
shown instruction, a clear message resets it to the idle state. -/
def patientApplyMsg (_cur : Option WirePayload) (m : PeerMsg) :
    Option WirePayload :=
  match m with
  | PeerMsg.instruction payload => some payload
  | PeerMsg.clear => none

/-- Apply a sequence of received messages in order. -/
def patientApplyMsgs (cur : Option WirePayload) (ms : List PeerMsg) :
    Option WirePayload :=
  ms.foldl patientApplyMsg cur

/-- The media-URL effect on the display: when the shown instruction carries
media bytes, rebuild a `Blob` from them with the carried MIME type (falling
back to `application/octet-stream`). -/
def mediaUrlEffect (inst : Option WirePayload) : Option Blob :=
  match inst with
  | some p =>
    match p.media with
    | some buf => some { bytes := buf, btype := p.media_type.getD "application/octet-stream" }
    | none => none
  | none => none

/-- `s.startsWith(p)` on strings, computed over the character lists. -/
def strStartsWith (s p : String) : Bool :=
  p.toList.isPrefixOf s.toList

/-- `media_type?.startsWith('video/')` — the display's video-vs-image test. -/
def isVideoType (mt : Option String) : Bool :=
  match mt with
  | some t => strStartsWith t "video/"
  | none => false

/-! ### Pairing-code generation and address derivation

The display runs `Math.floor(1000 + Math.random() * 9000).toString()` and
listens on the peer id `radio-patient-<code>`; `Math.random()` is in `[0, 1)`,
so `Math.floor(Math.random() * 9000)` is a natural number `r < 9000`, which we
take as the model of the randomness. -/

/-- The display's generated numeric pairing code, as a function of the random
draw `r = Math.floor(Math.random() * 9000)`. -/
def generateCode (r : Nat) : Nat := 1000 + r

/-- The peer id the display listens on: `radio-patient-${code}`. -/
def displayFullId (r : Nat) : String :=
  "radio-patient-" ++ toString (generateCode r)

/-- The peer id the controller dials after the operator types a code:
`radio-patient-${patientCode}` (from `connectToPatient`). -/
def controllerFullId (patientCode : String) : String :=
  "radio-patient-" ++ patientCode

/-! ### Label suppression: JS `isNaN(Number(name))`

Both patient displays render the text label under the condition
`(!media || isNaN(Number(instruction.name)))`.  `Number(string)` follows the
ECMAScript StringNumericLiteral grammar: the string is trimmed of whitespace;
an empty remainder converts to 0; otherwise it must be a signed decimal
literal (with optional fraction and exponent), a signed `Infinity`, or an
unsigned `0x`/`0o`/`0b` integer literal — anything else converts to NaN. -/

/-- Decimal-digit test on a character. -/
def decDigit (c : Char) : Bool :=
  decide (48 ≤ c.toNat) && decide (c.toNat ≤ 57)

/-- Hexadecimal-digit test. -/
def hexDigit (c : Char) : Bool :=
  decDigit c || (decide (97 ≤ c.toNat) && decide (c.toNat ≤ 102)) ||
    (decide (65 ≤ c.toNat) && decide (c.toNat ≤ 70))

/-- Octal-digit test. -/
def octDigit (c : Char) : Bool :=
  decide (48 ≤ c.toNat) && decide (c.toNat ≤ 55)

/-- Binary-digit test. -/
def binDigit (c : Char) : Bool :=
  decide (c.toNat = 48) || decide (c.toNat = 49)

/-- JS string whitespace (the characters trimmed by `ToNumber`): space, tab,
LF, VT, FF, CR, NBSP, BOM. -/
def strWhite (c : Char) : Bool :=
  decide (c.toNat = 32) || decide (c.toNat = 9) || decide (c.toNat = 10) ||
    decide (c.toNat = 11) || decide (c.toNat = 12) || decide (c.toNat = 13) ||
    decide (c.toNat = 160) || decide (c.toNat = 65279)

/-- Trim leading and trailing whitespace from a character list. -/
def trimWS (l : List Char) : List Char :=
  ((l.dropWhile strWhite).reverse.dropWhile strWhite).reverse

/-- The characters of the literal `Infinity`. -/
def infinityChars : List Char := ['I', 'n', 'f', 'i', 'n', 'i', 't', 'y']

/-- `SignedInteger ::: [+-]? DecimalDigits` (the exponent's integer). -/
def matchSignedDigits (l : List Char) : Bool :=
  match l with
  | [] => false
  | c :: rest =>
    if c = '+' ∨ c = '-' then !rest.isEmpty && rest.all decDigit
    else (c :: rest).all decDigit

/-- Optional `ExponentPart ::: [eE] SignedInteger`, consuming the whole rest. -/
def matchExpOpt (l : List Char) : Bool :=
  match l with
  | [] => true
  | c :: rest => if c = 'e' ∨ c = 'E' then matchSignedDigits rest else false

/-- `StrUnsignedDecimalLiteral ::: Infinity | DecimalDigits . DecimalDigits?
ExponentPart? | . DecimalDigits ExponentPart? | DecimalDigits ExponentPart?` -/
def matchUnsignedDec (l : List Char) : Bool :=
  if l = infinityChars then true
  else
    let intPart := l.takeWhile decDigit
    let rest := l.dropWhile decDigit
    match rest with
    | '.' :: rest2 =>
      let fracPart := rest2.takeWhile decDigit
      let rest3 := rest2.dropWhile decDigit
      (!intPart.isEmpty || !fracPart.isEmpty) && matchExpOpt rest3
    | _ => !intPart.isEmpty && matchExpOpt rest

/-- `StrDecimalLiteral ::: [+-]? StrUnsignedDecimalLiteral`. -/
def matchStrDecimal (l : List Char) : Bool :=
  match l with
  | [] => false
  | c :: rest =>
    if c = '+' ∨ c = '-' then matchUnsignedDec rest
    else matchUnsignedDec (c :: rest)

/-- `NonDecimalIntegerLiteral ::: 0[xX] Hex+ | 0[oO] Oct+ | 0[bB] Bin+`. -/
def matchNonDecimal (l : List Char) : Bool :=
  match l with
  | c0 :: c1 :: rest =>
    if c0 = '0' then
      if c1 = 'x' ∨ c1 = 'X' then !rest.isEmpty && rest.all hexDigit
      else if c1 = 'o' ∨ c1 = 'O' then !rest.isEmpty && rest.all octDigit
      else if c1 = 'b' ∨ c1 = 'B' then !rest.isEmpty && rest.all binDigit
      else false
    else false
  | _ => false

/-- Whether `Number(s)` is NaN for a string `s`: after trimming, an empty
string converts to 0 (not NaN); otherwise NaN exactly when the remainder
matches neither the decimal nor the non-decimal numeric grammar. -/
def jsStringToNumberIsNaN (s : String) : Bool :=
  let l := trimWS s.toList
  if l.isEmpty then false
  else !(matchStrDecimal l || matchNonDecimal l)

/-- The displays' label condition `(!media || isNaN(Number(name)))`: `true`
means the text label is rendered, `false` means it is suppressed. -/
def labelShownCond (hasMedia : Bool) (name : String) : Bool :=
  !hasMedia || jsStringToNumberIsNaN name

/-- The spec's heuristic: the text consists solely of (at least one) decimal
digits. -/
def isAllDigitsStr (s : String) : Bool :=
  !s.toList.isEmpty && s.toList.all decDigit

/-! ### Relay server (Socket.io variant, room-relayed mode) -/

/-- The instruction payload of the server-relayed variant (media travels as a
URL, not as bytes). -/
structure RoomInstr where
  id : String
  scenario_id : String
  name : String
  media_url : Option String
  media_type : Option String
  bg_color : String
  deriving DecidableEq, Repr

/-- The mutable WebSocket-level server state: the patient-connected flag and
the last-known current instruction. -/
structure ServerState where
  patientConnected : Bool
  currentInstruction : Option RoomInstr
  deriving DecidableEq, Repr

/-- Socket events the server reacts to. `disconnectCheck` models the delayed
room-size re-check in the `disconnect` handler, with `roomNonempty` the
observed `patient_room` occupancy. -/
inductive ServerEvent where
  | registerRole (role : String)
  | sendInstruction (i : RoomInstr)
  | clearInstruction
  | disconnectCheck (roomNonempty : Bool)
  deriving DecidableEq, Repr

/-- Messages the server emits to sockets. -/
inductive ServerOut where
  | patientStatus (connected : Bool)
  | playInstruction (i : RoomInstr)
  | clearMsg
  | historyUpdated
  deriving DecidableEq, Repr

/-- One server event handler step, returning the new state and the emitted
messages in emission order. -/
def serverStep (s : ServerState) (e : ServerEvent) :
    ServerState × List ServerOut :=
  match e with
  | ServerEvent.registerRole role =>
    if role = "patient" then
      ({ s with patientConnected := true },
       ServerOut.patientStatus true ::
         (match s.currentInstruction with
          | some i => [ServerOut.playInstruction i]
          | none => []))
    else if role = "staff" then
      (s, [ServerOut.patientStatus s.patientConnected])
    else (s, [])
  | ServerEvent.sendInstruction i =>
    ({ s with currentInstruction := some i },
     [ServerOut.playInstruction i, ServerOut.historyUpdated])
  | ServerEvent.clearInstruction =>
    ({ s with currentInstruction := none }, [ServerOut.clearMsg])
  | ServerEvent.disconnectCheck roomNonempty =>
    if s.patientConnected ≠ roomNonempty then
      ({ s with patientConnected := roomNonempty },
       [ServerOut.patientStatus roomNonempty])
    else (s, [])

/-- Run a sequence of server events (state component only). -/
def runServer (s : ServerState) (evs : List ServerEvent) : ServerState :=
  evs.foldl (fun st e => (serverStep st e).1) s

/-- The specification-level "last-known current instruction" of an event
trace: the payload of the most recent `send_instruction`, unless a
`clear_instruction` came after it. -/
def lastInstr (evs : List ServerEvent) (init : Option RoomInstr) :
    Option RoomInstr :=
  evs.foldl
    (fun acc e =>
      match e with
      | ServerEvent.sendInstruction i => some i
      | ServerEvent.clearInstruction => none
      | _ => acc)
    init

/-! ### Helper lemmas about the session state machine -/

/-- The state component of `startSession` in both match branches. -/
lemma startSession_state (s : StaffState) (sid : String) :
    (startSession s sid).1 =
      { s with
          activeScenarioId := some sid
          currentStepIndex := 0
          viewMode := ViewMode.session } := by
  unfold startSession
  split <;> rfl

/-- `goToStep` with an active session and an in-range index moves the cursor. -/
lemma goToStep_state_active {s : StaffState} {sid : String}
    (ha : s.activeScenarioId = some sid) (index : Int)
    (h : 0 ≤ index ∧
      index < ((getInsts s.instructionsByScenario sid).length : Int)) :
    (goToStep s index).1 = { s with currentStepIndex := index.toNat } := by
  simp only [goToStep, ha]
  rw [dif_pos h]

/-- `goToStep` with an active session and an out-of-range index is a no-op and
sends nothing. -/
lemma goToStep_noop_active {s : StaffState} {sid : String}
    (ha : s.activeScenarioId = some sid) (index : Int)
    (h : ¬(0 ≤ index ∧
      index < ((getInsts s.instructionsByScenario sid).length : Int))) :
    goToStep s index = (s, []) := by
  simp only [goToStep, ha]
  rw [dif_neg h]

/-- `advance` below the last step moves the cursor up by one. -/
lemma advance_state_lt {s : StaffState} {sid : String}
    (ha : s.activeScenarioId = some sid)
    (h : s.currentStepIndex + 1 < (getInsts s.instructionsByScenario sid).length) :
    (advance s).1 = { s with currentStepIndex := s.currentStepIndex + 1 } := by
  have h1 : ((s.currentStepIndex : Int) + 1) <
      ((getInsts s.instructionsByScenario sid).length : Int) := by
    exact_mod_cast h
  unfold advance
  rw [goToStep_state_active ha _ ⟨by omega, h1⟩]
  have : ((s.currentStepIndex : Int) + 1).toNat = s.currentStepIndex + 1 := by
    omega
  rw [this]

/-- `advance` at (or past) the last step is a no-op and sends nothing. -/
lemma advance_noop {s : StaffState} {sid : String}
    (ha : s.activeScenarioId = some sid)
    (h : (getInsts s.instructionsByScenario sid).length ≤ s.currentStepIndex + 1) :
    advance s = (s, []) := by
  unfold advance
  apply goToStep_noop_active ha
  rintro ⟨-, h1⟩
  omega

/-- Closed form of `k` advances while they stay in range. -/
lemma advanceN_closed (k : Nat) : ∀ (s : StaffState) (sid : String),
    s.activeScenarioId = some sid →
    s.currentStepIndex + k < (getInsts s.instructionsByScenario sid).length →
    advanceN k s = { s with currentStepIndex := s.currentStepIndex + k } := by
  induction k with
  | zero =>
    intro s sid _ _
    show s = { s with currentStepIndex := s.currentStepIndex + 0 }
    rfl
  | succ k ih =>
    intro s sid ha h
    show advanceN k (advance s).1 = _
    rw [advance_state_lt ha (by omega)]
    rw [ih { s with currentStepIndex := s.currentStepIndex + 1 } sid ha
      (by simpa [getInsts] using (by omega :
        s.currentStepIndex + 1 + k < (getInsts s.instructionsByScenario sid).length))]
    show ({ s with currentStepIndex := s.currentStepIndex + 1 + k } : StaffState) = _
    have : s.currentStepIndex + 1 + k = s.currentStepIndex + (k + 1) := by omega
    rw [this]

/-! ### Sample data for witnesses and counterexamples -/

/-- A sample instruction with no media. -/
def instA : Instruction :=
  { id := "i1", scenario_id := "s1", name := "1", media := none,
    media_type := none, bg_color := "bg-blue-500" }

/-- A second sample instruction. -/
def instB : Instruction :=
  { id := "i2", scenario_id := "s1", name := "2", media := none,
    media_type := none, bg_color := "bg-blue-500" }

/-- A controller state whose `instructionsByScenario` record maps scenario
`s1` to an empty step list (reachable by deleting every step). -/
def emptyScnState : StaffState :=
  { patientCode := "", isConnecting := false, patientConnected := false,
    conn := false, viewMode := ViewMode.list, activeScenarioId := none,
    currentStepIndex := 0, instructionsByScenario := [("s1", [])] }

/-- A connected controller state with an active two-step session. -/
def activeConnState : StaffState :=
  { patientCode := "1234", isConnecting := false, patientConnected := true,
    conn := true, viewMode := ViewMode.session, activeScenarioId := some "s1",
    currentStepIndex := 0, instructionsByScenario := [("s1", [instA, instB])] }

/-- An idle controller state holding a two-step scenario. -/
def idleState : StaffState :=
  { patientCode := "1234", isConnecting := false, patientConnected := true,
    conn := true, viewMode := ViewMode.list, activeScenarioId := none,
    currentStepIndex := 0, instructionsByScenario := [("s1", [instA, instB])] }

/-! ### C1 — cursor bounds -/

/-- C1 counterexample: `startSession` on a scenario whose step list is empty
enters the Active state (the active scenario id is set) with cursor `0` and
zero steps, so `cursor < length(steps)` fails — nothing is clamped. -/
theorem C1_counterexample :
    (startSession emptyScnState "s1").1.activeScenarioId = some "s1" ∧
    ¬ ((startSession emptyScnState "s1").1.currentStepIndex <
        (getInsts (startSession emptyScnState "s1").1.instructionsByScenario
          "s1").length) := by
  decide

/-- C1 (amended): whenever a session is active and its step list is nonempty,
`0 ≤ cursor < length(steps)` holds, and `startSession`, `goToStep` and
`endSession` all preserve this invariant; `goToStep` clamps by ignoring
out-of-range indices.  (`startSession` on an empty step list enters Active
with `cursor = 0 = length`, where the strict bound fails.) -/
theorem C1_cursor_invariant (s : StaffState) (sid : String) (index : Int)
    (h : sessionInv s) :
    sessionInv (startSession s sid).1 ∧ sessionInv (goToStep s index).1 ∧
      sessionInv (endSession s).1 := by
  refine ⟨?_, ?_, ?_⟩
  · rw [startSession_state]
    show getInsts s.instructionsByScenario sid ≠ [] →
      0 < (getInsts s.instructionsByScenario sid).length
    intro hne
    exact List.length_pos.mpr hne
  · cases hact : s.activeScenarioId with
    | none =>
      unfold goToStep
      rw [hact]
      exact h
    | some sid' =>
      by_cases hb : 0 ≤ index ∧
          index < ((getInsts s.instructionsByScenario sid').length : Int)
      · rw [goToStep_state_active hact index hb]
        simp only [sessionInv, hact]
        intro _
        omega
      · rw [goToStep_noop_active hact index hb]
        exact h
  · show True
    trivial

/-- C1 witness: the amended invariant holds at a concrete state and is
preserved by the three operations there. -/
theorem C1_cursor_invariant_witness :
    sessionInv (startSession idleState "s1").1 ∧
      sessionInv (goToStep idleState 0).1 ∧
      sessionInv (endSession idleState).1 :=
  C1_cursor_invariant idleState "s1" 0 trivial

/-! ### C2 — start delivers step 0 -/

/-- C2: on a connected controller, `startSession` sets the cursor to 0 and
activates the scenario; when the scenario has at least one step it sends
exactly one `show` of the first instruction, and when it has no steps it
sends nothing. -/
theorem C2_start_sends_first_step (s : StaffState) (sid : String)
    (hc : s.conn = true) (hp : s.patientConnected = true) :
    (startSession s sid).1.currentStepIndex = 0 ∧
    (startSession s sid).1.activeScenarioId = some sid ∧
    (∀ inst0 rest, getInsts s.instructionsByScenario sid = inst0 :: rest →
      (startSession s sid).2 = [PeerMsg.instruction (mkPayload inst0)]) ∧
    (getInsts s.instructionsByScenario sid = [] →
      (startSession s sid).2 = []) := by
  refine ⟨?_, ?_, ?_, ?_⟩
  · rw [startSession_state]
  · rw [startSession_state]
  · intro inst0 rest hlist
    simp only [startSession, hlist]
    simp [sendInstruction, hc, hp]
  · intro hlist
    simp only [startSession, hlist]

/-- C2 witness: a concrete connected state with a nonempty scenario. -/
theorem C2_start_sends_first_step_witness :
    (startSession idleState "s1").1.currentStepIndex = 0 ∧
    (startSession idleState "s1").1.activeScenarioId = some "s1" ∧
    (∀ inst0 rest, getInsts idleState.instructionsByScenario "s1" = inst0 :: rest →
      (startSession idleState "s1").2 = [PeerMsg.instruction (mkPayload inst0)]) ∧
    (getInsts idleState.instructionsByScenario "s1" = [] →
      (startSession idleState "s1").2 = []) :=
  C2_start_sends_first_step idleState "s1" rfl rfl

/-! ### C3 — advancing to the last step, then a no-op -/

/-- C3: starting a session on a scenario with `N ≥ 1` steps and advancing
`N - 1` times reaches cursor `N - 1`; one further advance leaves the state
unchanged and sends no message. -/
theorem C3_advance_clamps_at_end (s : StaffState) (sid : String)
    (h : getInsts s.instructionsByScenario sid ≠ []) :
    (advanceN ((getInsts s.instructionsByScenario sid).length - 1)
        (startSession s sid).1).currentStepIndex
      = (getInsts s.instructionsByScenario sid).length - 1 ∧
    advance (advanceN ((getInsts s.instructionsByScenario sid).length - 1)
        (startSession s sid).1)
      = (advanceN ((getInsts s.instructionsByScenario sid).length - 1)
          (startSession s sid).1, []) := by
  have hpos : 0 < (getInsts s.instructionsByScenario sid).length :=
    List.length_pos.mpr h
  rw [startSession_state]
  rw [advanceN_closed _ _ sid rfl
    (by
      show 0 + ((getInsts s.instructionsByScenario sid).length - 1) <
        (getInsts s.instructionsByScenario sid).length
      omega)]
  constructor
  · show 0 + ((getInsts s.instructionsByScenario sid).length - 1) =
      (getInsts s.instructionsByScenario sid).length - 1
    omega
  · apply @advance_noop _ sid rfl
    show (getInsts s.instructionsByScenario sid).length ≤
      0 + ((getInsts s.instructionsByScenario sid).length - 1) + 1
    omega

/-- C3 witness at a concrete two-step scenario. -/
theorem C3_advance_clamps_at_end_witness :
    getInsts idleState.instructionsByScenario "s1" ≠ [] ∧
    ((advanceN ((getInsts idleState.instructionsByScenario "s1").length - 1)
        (startSession idleState "s1").1).currentStepIndex
      = (getInsts idleState.instructionsByScenario "s1").length - 1 ∧
    advance (advanceN ((getInsts idleState.instructionsByScenario "s1").length - 1)
        (startSession idleState "s1").1)
      = (advanceN ((getInsts idleState.instructionsByScenario "s1").length - 1)
          (startSession idleState "s1").1, [])) :=
  ⟨by decide, C3_advance_clamps_at_end idleState "s1" (by decide)⟩

/-! ### C4 — idempotence of `end()` -/

/-- C4 counterexample: from a connected active session, the first `endSession`
reaches the Idle state, and the second `endSession` — contrary to the claim —
still sends a `clear` message to the display. -/
theorem C4_counterexample :
    (endSession activeConnState).1.activeScenarioId = none ∧
    (endSession (endSession activeConnState).1).2 = [PeerMsg.clear] := by
  decide

/-- C4 (amended): a second consecutive `endSession` leaves the controller
state exactly unchanged, but it is not message-silent: when a connection is
present it re-sends a `clear` message; since `clear` maps any display state to
idle and the display is already idle after the first `end`, the second call
has no effect on the display's state either. -/
theorem C4_end_idempotent_on_state (s : StaffState) (d : Option WirePayload) :
    (endSession (endSession s).1).1 = (endSession s).1 ∧
    ((endSession (endSession s).1).2
      = if (endSession s).1.conn && (endSession s).1.patientConnected
        then [PeerMsg.clear] else []) ∧
    patientApplyMsgs (patientApplyMsgs d (endSession s).2)
        (endSession (endSession s).1).2
      = patientApplyMsgs d (endSession s).2 := by
  cases s with
  | mk pc ic pconn cn vm act ci map =>
    cases hb : cn && pconn <;>
      simp [endSession, clearInstruction, patientApplyMsgs, patientApplyMsg, hb]

/-! ### C7 — transport close touches only connectivity -/

/-- C7: on a state with an active session, the transport `close` handler sets
the connected flag to `false` (and drops the connection reference) while the
active scenario id, the cursor, the step lists and the view mode are all
unchanged. -/
theorem C7_close_preserves_session (s : StaffState) (sid : String)
    (h : s.activeScenarioId = some sid) :
    (connClose s).patientConnected = false ∧
    (connClose s).conn = false ∧
    (connClose s).activeScenarioId = some sid ∧
    (connClose s).currentStepIndex = s.currentStepIndex ∧
    (connClose s).instructionsByScenario = s.instructionsByScenario ∧
    (connClose s).viewMode = s.viewMode :=
  ⟨rfl, rfl, h, rfl, rfl, rfl⟩

/-- C7 witness at a concrete connected active state. -/
theorem C7_close_preserves_session_witness :
    (connClose activeConnState).patientConnected = false ∧
    (connClose activeConnState).conn = false ∧
    (connClose activeConnState).activeScenarioId = some "s1" ∧
    (connClose activeConnState).currentStepIndex
      = activeConnState.currentStepIndex ∧
    (connClose activeConnState).instructionsByScenario
      = activeConnState.instructionsByScenario ∧
    (connClose activeConnState).viewMode = activeConnState.viewMode :=
  C7_close_preserves_session activeConnState "s1" rfl

/-! ### Server lemmas and C5 / C10 -/

/-- How one server step changes the stored current instruction. -/
lemma serverStep_current (s : ServerState) (e : ServerEvent) :
    (serverStep s e).1.currentInstruction =
      match e with
      | ServerEvent.sendInstruction i => some i
      | ServerEvent.clearInstruction => none
      | _ => s.currentInstruction := by
  cases e with
  | registerRole role =>
    by_cases h1 : role = "patient" <;> by_cases h2 : role = "staff" <;>
      simp [serverStep, h1, h2]
  | sendInstruction i => rfl
  | clearInstruction => rfl
  | disconnectCheck b =>
    by_cases hd : s.patientConnected ≠ b <;> simp [serverStep, hd]

/-- The stored current instruction after a trace equals the trace's last-known
instruction. -/
lemma runServer_current (evs : List ServerEvent) : ∀ s : ServerState,
    (runServer s evs).currentInstruction =
      lastInstr evs s.currentInstruction := by
  induction evs with
  | nil => intro s; rfl
  | cons e rest ih =>
    intro s
    show (runServer (serverStep s e).1 rest).currentInstruction = _
    rw [ih]
    show lastInstr rest (serverStep s e).1.currentInstruction =
      lastInstr rest _
    rw [serverStep_current]

/-- Sample payload and initial state for the relay server. -/
def roomInstrA : RoomInstr :=
  { id := "i1", scenario_id := "s1", name := "1", media_url := none,
    media_type := none, bg_color := "bg-blue-500" }

/-- A fresh relay-server state: no display registered, no instruction. -/
def serverInit : ServerState :=
  { patientConnected := false, currentInstruction := none }

/-- C5: replay-on-join.  Whenever the trace of handled events leaves the
server with a last-known current instruction `i` (a `send_instruction` not
since cleared), a display that registers as `patient` immediately receives
`play_instruction i`, with no further operator action; the patient-connected
flag is set. -/
theorem C5_replay_on_join (s0 : ServerState) (evs : List ServerEvent)
    (i : RoomInstr) (h : lastInstr evs s0.currentInstruction = some i) :
    (serverStep (runServer s0 evs) (ServerEvent.registerRole "patient")).2
      = [ServerOut.patientStatus true, ServerOut.playInstruction i] ∧
    (serverStep (runServer s0 evs)
      (ServerEvent.registerRole "patient")).1.patientConnected = true := by
  have hc : (runServer s0 evs).currentInstruction = some i := by
    rw [runServer_current]; exact h
  exact ⟨by simp [serverStep, hc], by simp [serverStep]⟩

/-- C5 witness: one `send_instruction` then a registering display. -/
theorem C5_replay_on_join_witness :
    lastInstr [ServerEvent.sendInstruction roomInstrA]
        serverInit.currentInstruction = some roomInstrA ∧
    ((serverStep (runServer serverInit [ServerEvent.sendInstruction roomInstrA])
        (ServerEvent.registerRole "patient")).2
      = [ServerOut.patientStatus true, ServerOut.playInstruction roomInstrA] ∧
    (serverStep (runServer serverInit [ServerEvent.sendInstruction roomInstrA])
      (ServerEvent.registerRole "patient")).1.patientConnected = true) :=
  ⟨by decide,
   C5_replay_on_join serverInit [ServerEvent.sendInstruction roomInstrA]
     roomInstrA (by decide)⟩

/-- C10: the stored current instruction always equals the payload of the most
recent `send_instruction` unless a `clear_instruction` followed (and is `none`
before any send); consequently a display registering while it is `none`
receives only the status broadcast and no `play_instruction` replay. -/
theorem C10_current_instruction_tracks_trace (s0 : ServerState)
    (evs : List ServerEvent) :
    (runServer s0 evs).currentInstruction =
      lastInstr evs s0.currentInstruction ∧
    ((runServer s0 evs).currentInstruction = none →
      (serverStep (runServer s0 evs) (ServerEvent.registerRole "patient")).2
        = [ServerOut.patientStatus true]) := by
  refine ⟨runServer_current evs s0, fun h => ?_⟩
  simp [serverStep, h]

/-- C10 witness: a send followed by a clear leaves no instruction, and a
late-joining display gets no replay. -/
theorem C10_current_instruction_tracks_trace_witness :
    (runServer serverInit
        [ServerEvent.sendInstruction roomInstrA,
          ServerEvent.clearInstruction]).currentInstruction =
      lastInstr [ServerEvent.sendInstruction roomInstrA,
        ServerEvent.clearInstruction] serverInit.currentInstruction ∧
    (serverStep (runServer serverInit
        [ServerEvent.sendInstruction roomInstrA,
          ServerEvent.clearInstruction])
      (ServerEvent.registerRole "patient")).2
        = [ServerOut.patientStatus true] :=
  ⟨(C10_current_instruction_tracks_trace serverInit
      [ServerEvent.sendInstruction roomInstrA, ServerEvent.clearInstruction]).1,
   (C10_current_instruction_tracks_trace serverInit
      [ServerEvent.sendInstruction roomInstrA,
        ServerEvent.clearInstruction]).2 (by decide)⟩

/-! ### C6 — media round-trip through `show` (peer-to-peer variant) -/

/-- C6: a step whose media blob holds bytes `B` with an image MIME type,
sent while connected, reaches the display as one instruction message; the
display's media effect rebuilds a blob with exactly the bytes `B` and the same
type tag, and its video-vs-image test still classifies it as an image. -/
theorem C6_media_roundtrip (s : StaffState) (inst : Instruction) (b : Blob)
    (t : String) (hc : s.conn = true) (hp : s.patientConnected = true)
    (hm : inst.media = some b) (ht : inst.media_type = some t)
    (himg : strStartsWith t "video/" = false) :
    sendInstruction s inst = [PeerMsg.instruction (mkPayload inst)] ∧
    (∀ d : Option WirePayload,
      mediaUrlEffect (patientApplyMsg d (PeerMsg.instruction (mkPayload inst)))
        = some { bytes := b.bytes, btype := t }) ∧
    isVideoType (mkPayload inst).media_type = false := by
  refine ⟨by simp [sendInstruction, hc, hp], fun d => ?_, ?_⟩
  · simp [mediaUrlEffect, patientApplyMsg, mkPayload, hm, ht, Blob.toArrayBuffer]
  · show isVideoType inst.media_type = false
    rw [ht]
    exact himg

/-- A sample instruction carrying image media bytes. -/
def instImg : Instruction :=
  { id := "i3", scenario_id := "s1", name := "3",
    media := some { bytes := [137, 80, 78, 71], btype := "image/png" },
    media_type := some "image/png", bg_color := "bg-blue-500" }

/-- C6 witness: concrete bytes round-trip through the connected channel. -/
theorem C6_media_roundtrip_witness :
    sendInstruction activeConnState instImg
      = [PeerMsg.instruction (mkPayload instImg)] ∧
    (∀ d : Option WirePayload,
      mediaUrlEffect (patientApplyMsg d (PeerMsg.instruction (mkPayload instImg)))
        = some { bytes := [137, 80, 78, 71], btype := "image/png" }) ∧
    isVideoType (mkPayload instImg).media_type = false :=
  C6_media_roundtrip activeConnState instImg
    { bytes := [137, 80, 78, 71], btype := "image/png" } "image/png"
    rfl rfl rfl rfl (by decide)

/-! ### C8 — pairing-code agreement -/

/-- C8: for any random draw, the display's generated code lies in
`1000..9999`, hence has exactly 4 decimal digits, and the controller's
transformation of the same typed code yields exactly the display's listening
identifier. -/
theorem C8_pairing_code_agreement (r : Nat) (h : r < 9000) :
    1000 ≤ generateCode r ∧ generateCode r ≤ 9999 ∧
    (Nat.digits 10 (generateCode r)).length = 4 ∧
    controllerFullId (toString (generateCode r)) = displayFullId r := by
  refine ⟨by unfold generateCode; omega, by unfold generateCode; omega, ?_, rfl⟩
  rw [Nat.digits_len 10 _ (by norm_num) (by unfold generateCode; omega)]
  have hlog : Nat.log 10 (generateCode r) = 3 := by
    apply Nat.log_eq_of_pow_le_of_lt_pow
    · show 10 ^ 3 ≤ generateCode r
      unfold generateCode; omega
    · show generateCode r < 10 ^ (3 + 1)
      unfold generateCode; omega
  omega

/-- C8 witness at a concrete draw. -/
theorem C8_pairing_code_agreement_witness :
    (0 : Nat) < 9000 ∧
    (1000 ≤ generateCode 0 ∧ generateCode 0 ≤ 9999 ∧
      (Nat.digits 10 (generateCode 0)).length = 4 ∧
      controllerFullId (toString (generateCode 0)) = displayFullId 0) :=
  ⟨by decide, C8_pairing_code_agreement 0 (by decide)⟩

/-! ### C9 — label suppression -/

/-- A decimal digit is not JS whitespace. -/
lemma decDigit_not_white {c : Char} (h : decDigit c = true) :
    strWhite c = false := by
  unfold decDigit at h
  simp only [Bool.and_eq_true, decide_eq_true_eq] at h
  unfold strWhite
  simp only [Bool.or_eq_false_iff, decide_eq_false_iff_not]
  omega

/-- `dropWhile` is the identity when no element satisfies the predicate. -/
lemma dropWhile_eq_self_of_none {p : Char → Bool} (l : List Char)
    (h : ∀ c ∈ l, p c = false) : l.dropWhile p = l := by
  cases l with
  | nil => rfl
  | cons a l =>
    rw [List.dropWhile_cons, h a (List.mem_cons_self a l)]
    simp

/-- `takeWhile` keeps everything when all elements satisfy the predicate. -/
lemma takeWhile_eq_self_of_all {p : Char → Bool} :
    ∀ l : List Char, l.all p = true → l.takeWhile p = l := by
  intro l
  induction l with
  | nil => intro _; rfl
  | cons a l ih =>
    intro h
    simp only [List.all_cons, Bool.and_eq_true] at h
    rw [List.takeWhile_cons, h.1]
    simp [ih h.2]

/-- `dropWhile` drops everything when all elements satisfy the predicate. -/
lemma dropWhile_eq_nil_of_all {p : Char → Bool} :
    ∀ l : List Char, l.all p = true → l.dropWhile p = [] := by
  intro l
  induction l with
  | nil => intro _; rfl
  | cons a l ih =>
    intro h
    simp only [List.all_cons, Bool.and_eq_true] at h
    rw [List.dropWhile_cons, h.1]
    simp [ih h.2]

/-- Trimming is the identity on whitespace-free character lists. -/
lemma trimWS_eq_self (l : List Char) (h : ∀ c ∈ l, strWhite c = false) :
    trimWS l = l := by
  unfold trimWS
  rw [dropWhile_eq_self_of_none l h]
  rw [dropWhile_eq_self_of_none l.reverse
    (fun c hc => h c (List.mem_reverse.mp hc))]
  exact List.reverse_reverse l

/-- A nonempty all-digit character list matches the unsigned decimal
grammar. -/
lemma allDigits_matchUnsignedDec (l : List Char) (hne : l ≠ [])
    (h : l.all decDigit = true) : matchUnsignedDec l = true := by
  by_cases hinf : l = infinityChars
  · unfold matchUnsignedDec
    rw [if_pos hinf]
  · simp only [matchUnsignedDec]
    rw [if_neg hinf]
    rw [takeWhile_eq_self_of_all l h, dropWhile_eq_nil_of_all l h]
    show !l.isEmpty && matchExpOpt [] = true
    cases l with
    | nil => exact absurd rfl hne
    | cons a l => rfl

/-- A nonempty all-digit character list matches the signed decimal grammar. -/
lemma allDigits_matchStrDecimal (l : List Char) (hne : l ≠ [])
    (h : l.all decDigit = true) : matchStrDecimal l = true := by
  cases l with
  | nil => exact absurd rfl hne
  | cons c rest =>
    simp only [List.all_cons, Bool.and_eq_true] at h
    have hsign : ¬(c = '+' ∨ c = '-') := by
      rintro (rfl | rfl) <;> simp [decDigit] at h
    simp only [matchStrDecimal]
    rw [if_neg hsign]
    exact allDigits_matchUnsignedDec (c :: rest) (by simp)
      (by simp [List.all_cons, h.1, h.2])

/-- `Number` of an all-digit string is never NaN. -/
lemma allDigits_not_nan (s : String) (h : isAllDigitsStr s = true) :
    jsStringToNumberIsNaN s = false := by
  unfold isAllDigitsStr at h
  simp only [Bool.and_eq_true, Bool.not_eq_true'] at h
  have hne : s.toList ≠ [] := by
    intro heq
    rw [heq] at h
    simp at h
  have hnw : ∀ c ∈ s.toList, strWhite c = false := by
    intro c hc
    exact decDigit_not_white (List.all_eq_true.mp h.2 c hc)
  simp only [jsStringToNumberIsNaN]
  rw [trimWS_eq_self s.toList hnw]
  rw [h.1]
  rw [allDigits_matchStrDecimal s.toList hne h.2]
  rfl

/-- C9 counterexample: with media present and the label `"1.5"` — not a bare
sequence of decimal digits — the display still suppresses the label, because
`Number("1.5")` is not NaN. -/
theorem C9_counterexample :
    labelShownCond true "1.5" = false ∧ isAllDigitsStr "1.5" = false := by
  decide

/-- C9 (amended): with media present, the label is suppressed exactly when
`Number(text)` is not NaN — in particular every text consisting solely of
decimal digits is suppressed — and without media the label is always
rendered.  (The original "exactly the all-digit texts" fails: numeric forms
such as `"1.5"` are also suppressed.) -/
theorem C9_label_suppression (hasMedia : Bool) (name : String) :
    (labelShownCond hasMedia name = false ↔
      hasMedia = true ∧ jsStringToNumberIsNaN name = false) ∧
    (hasMedia = true → isAllDigitsStr name = true →
      labelShownCond hasMedia name = false) ∧
    (hasMedia = false → labelShownCond hasMedia name = true) := by
  refine ⟨?_, ?_, ?_⟩
  · cases hasMedia <;> simp [labelShownCond]
  · rintro rfl hd
    simp [labelShownCond, allDigits_not_nan name hd]
  · rintro rfl
    simp [labelShownCond]

/-- C9 witness: an all-digit label with media is suppressed; without media a
label is rendered. -/
theorem C9_label_suppression_witness :
    isAllDigitsStr "42" = true ∧ labelShownCond true "42" = false ∧
      labelShownCond false "1.5" = true :=
  ⟨by decide, (C9_label_suppression true "42").2.1 rfl (by decide),
   (C9_label_suppression false "1.5").2.2 rfl⟩

end RadiologyComm
